import Mathlib

/-!
# Verification of the PyTrakt calendar / search / sync / scrobble layer

Shallow embedding of `trakt/calendar.py` and `trakt/sync.py`.

JSON timestamps and dates are modelled as natural numbers, JSON object
fragments as association lists of string pairs, and the ambient clock of
`datetime.now()` as an explicit `now` argument.  The HTTP layer is modelled
by returning the request (uri and payload) that the code would issue.
-/

namespace PyTrakt

/-! ## Data model: TV entities (`trakt.tv`, read by `calendar.py`)

The calendar builder reads three things from the entity classes: a show's
`seasons` list, a season's `season` number and `episodes` list, and an
episode's `season` number and `airs_at` timestamp.  We embed exactly those
fields. -/

structure TVEpisode where
  showTitle : String
  season : Nat
  number : Nat
  airs_at : Nat
deriving Repr, DecidableEq

structure TVSeason where
  season : Nat
  episodes : List TVEpisode
deriving Repr, DecidableEq

structure TVShow where
  title : String
  slug : String
  seasons : List TVSeason
deriving Repr, DecidableEq

/-- One record of a TV calendar JSON response: the `show` fragment (title plus
the season list the constructed `TVShow` ends up with), the `episode` fragment
(`season`, `number`) and the `first_aired` date. -/
structure TVCalRecord where
  showTitle : String
  showSeasons : List TVSeason
  episodeSeason : Nat
  episodeNumber : Nat
  first_aired : Nat
deriving Repr, DecidableEq

/-- Modelled from the spec: `airs_date` (in `trakt.utils`, outside `src/`)
parses the `first_aired` field of a calendar record into an air timestamp.
Timestamps are already modelled as `Nat`, so the parse is the identity. -/
def airs_date (first_aired : Nat) : Nat := first_aired

/-- `calendar.py` line 73: `TVShow(show_data.pop('title'), slug="sodiafagiaugaiugh", ...)`. -/
def mkShow (r : TVCalRecord) : TVShow :=
  { title := r.showTitle, slug := "sodiafagiaugaiugh", seasons := r.showSeasons }

/-- `calendar.py` line 81: `TVEpisode(show.title, episode_data.pop('season'),
episode_data.pop('number'), **episode_data)` with
`airs_at = airs_date(item.get('first_aired'))`. -/
def mkEpisode (r : TVCalRecord) : TVEpisode :=
  { showTitle := r.showTitle, season := r.episodeSeason, number := r.episodeNumber,
    airs_at := airs_date r.first_aired }

/-- `calendar.py` lines 87-91: scan `show.seasons` for the first season whose
number equals the episode's season number; on a hit, prune the show to that
single season and the season to the single constructed episode, then `break`.
If no season matches, the show is left untouched. -/
def pruneShow (sh : TVShow) (ep : TVEpisode) : TVShow :=
  match sh.seasons.find? (fun se => se.season == ep.season) with
  | some se => { sh with seasons := [{ se with episodes := [ep] }] }
  | none => sh

/-- Processing of a single TV calendar record (loop body, lines 66-94). -/
def processItem (r : TVCalRecord) : TVShow :=
  pruneShow (mkShow r) (mkEpisode r)

/-- `calendar.py` line 93: a processed show is appended to the calendar
exactly when `len(show._seasons) == 1`. -/
def keptShows (data : List TVCalRecord) : List TVShow :=
  (data.map processItem).filter (fun sh => sh.seasons.length == 1)

/-- The sort key of line 107, `x.seasons[0].episodes[0].airs_at`; `none` when
the Python expression would raise `IndexError`. -/
def sortKey? (sh : TVShow) : Option Nat :=
  match sh.seasons with
  | [] => none
  | se :: _ =>
    match se.episodes with
    | [] => none
    | ep :: _ => some ep.airs_at

/-- Total version of the sort key (the calendar builder only sorts lists on
which every key is defined). -/
def keyD (sh : TVShow) : Nat := (sortKey? sh).getD 0

/-- Ordering used by line 107's `sorted(...)`. -/
def tvLE (a b : TVShow) : Prop := keyD a ≤ keyD b

instance : DecidableRel tvLE := fun a b => Nat.decLe (keyD a) (keyD b)

instance : IsTotal TVShow tvLE := ⟨fun a b => Nat.le_total (keyD a) (keyD b)⟩

instance : IsTrans TVShow tvLE := ⟨fun _ _ _ => Nat.le_trans⟩

/-- `Calendar._build` (calendar.py lines 62-107).  Python's `sorted` is a
stable sort; a stable sort by a total preorder is extensionally unique, so it
is modelled by `List.insertionSort` (stable and structurally recursive).
The result is `none` when a retained show has no first season or no first
episode, where line 107's key function would raise `IndexError`. -/
def Calendar.build (data : List TVCalRecord) : Option (List TVShow) :=
  let kept := keptShows data
  if kept.all (fun sh => (sortKey? sh).isSome) then
    some (kept.insertionSort tvLE)
  else
    none

/-- Does some known season of the record's show match the episode's season
number?  (The spec's retention criterion.) -/
def hasMatchingSeason (r : TVCalRecord) : Bool :=
  r.showSeasons.any (fun se => se.season == r.episodeSeason)

/-- The retention condition actually implemented by lines 87-94: a record is
kept when a season matches, or when the show's season list already has length
exactly one (in which case no pruning happened). -/
def retained (r : TVCalRecord) : Bool :=
  hasMatchingSeason r || r.showSeasons.length == 1

theorem processItem_retained (r : TVCalRecord) :
    ((processItem r).seasons.length == 1) = retained r := by
  unfold processItem pruneShow retained hasMatchingSeason
  cases hf : ((mkShow r).seasons.find? fun se => se.season == (mkEpisode r).season) with
  | some se =>
    have hmem := List.mem_of_find?_eq_some hf
    have hp := List.find?_some hf
    have hany : (r.showSeasons.any fun se => se.season == r.episodeSeason) = true :=
      List.any_eq_true.mpr ⟨se, hmem, hp⟩
    simp [hany]
  | none =>
    have hnone : ∀ se ∈ (mkShow r).seasons, ¬(se.season == (mkEpisode r).season) = true :=
      List.find?_eq_none.mp hf
    have hany : (r.showSeasons.any fun se => se.season == r.episodeSeason) = false := by
      rw [List.any_eq_false]
      exact hnone
    simp [mkShow, hany]

theorem keptShows_eq (data : List TVCalRecord) :
    keptShows data = (data.filter retained).map processItem := by
  induction data with
  | nil => rfl
  | cons r rs ih =>
    unfold keptShows at ih ⊢
    rw [List.map_cons, List.filter_cons, List.filter_cons, processItem_retained]
    cases hr : retained r with
    | true => simp [ih]
    | false => simp [ih]

theorem build_some_iff (data : List TVCalRecord) (cal : List TVShow) :
    Calendar.build data = some cal ↔
      ((keptShows data).all fun sh => (sortKey? sh).isSome) = true ∧
      cal = (keptShows data).insertionSort tvLE := by
  unfold Calendar.build
  by_cases hc : ((keptShows data).all fun sh => (sortKey? sh).isSome) = true
  · simp [hc, eq_comm]
  · simp [hc]

/-- A record with a single known season (number 2) that does not match the
episode's season number (5); the claimed filtering would drop it. -/
def c1rec : TVCalRecord :=
  { showTitle := "lone", showSeasons := [{ season := 2, episodes :=
      [{ showTitle := "lone", season := 2, number := 1, airs_at := 5 }] }],
    episodeSeason := 5, episodeNumber := 1, first_aired := 9 }

/-- C1, counterexample: for the response `[c1rec]` we have `N = 1` records and
`M = 1` records without a matching season (`hasMatchingSeason c1rec = false`),
so the claim demands a calendar of length `N - M = 0`; the built calendar has
length 1, because line 93's `len(show._seasons) == 1` check also passes for a
show whose season list was already a singleton and was never pruned. -/
theorem build_noMatch_singleSeason_retained_cex :
    hasMatchingSeason c1rec = false ∧
    (Calendar.build [c1rec]).map List.length = some 1 ∧ (1 : Nat) ≠ 1 - 1 :=
  ⟨rfl, rfl, by decide⟩

/-- C1 (amended): a record is retained iff it has a matching season or its
show's season list has exactly one season (`retained`); the built calendar is
a permutation of the processed retained records, its length is the number of
retained records, and every record with a matching season is retained. -/
theorem build_length_filter_retained (data : List TVCalRecord) (cal : List TVShow)
    (h : Calendar.build data = some cal) :
    cal.length = (data.filter retained).length ∧
    cal.Perm ((data.filter retained).map processItem) ∧
    ∀ r ∈ data, hasMatchingSeason r = true → processItem r ∈ cal := by
  obtain ⟨-, rfl⟩ := (build_some_iff data cal).mp h
  refine ⟨?_, ?_, ?_⟩
  · rw [keptShows_eq]
    exact (List.perm_insertionSort _ _).length_eq.trans (List.length_map _ _)
  · rw [keptShows_eq]
    exact List.perm_insertionSort _ _
  · intro r hr hm
    rw [List.mem_insertionSort, keptShows_eq]
    exact List.mem_map_of_mem processItem
      (List.mem_filter.mpr ⟨hr, by simp [retained, hm]⟩)

/-- A record whose episode matches its show's only season (retained). -/
def c1wMatch : TVCalRecord :=
  { showTitle := "m", showSeasons := [{ season := 1, episodes := [] }],
    episodeSeason := 1, episodeNumber := 3, first_aired := 7 }

/-- A record with two known seasons, neither matching (dropped). -/
def c1wDrop : TVCalRecord :=
  { showTitle := "d",
    showSeasons := [{ season := 1, episodes := [] }, { season := 2, episodes := [] }],
    episodeSeason := 9, episodeNumber := 1, first_aired := 8 }

theorem build_length_filter_retained_witness :
    ((keptShows [c1wMatch, c1wDrop]).insertionSort tvLE).length
      = (([c1wMatch, c1wDrop]).filter retained).length :=
  (build_length_filter_retained [c1wMatch, c1wDrop] _ rfl).1

/-- A record retained without pruning: a single non-matching season holding
two episodes. -/
def c2rec : TVCalRecord :=
  { showTitle := "two",
    showSeasons := [{ season := 3, episodes :=
      [{ showTitle := "two", season := 3, number := 1, airs_at := 4 },
       { showTitle := "two", season := 3, number := 2, airs_at := 6 }] }],
    episodeSeason := 8, episodeNumber := 1, first_aired := 11 }

/-- C2, counterexample: on the response `[c2rec]` the build succeeds and the
single retained show's single season holds two episodes, not one, refuting
the claim that every retained show's season has exactly one episode. -/
theorem build_retained_two_episodes_cex :
    ((Calendar.build [c2rec]).map
        (List.map fun sh => sh.seasons.map fun se => se.episodes.length) = some [[2]]) ∧
    ¬(∀ cal, Calendar.build [c2rec] = some cal →
        ∀ sh ∈ cal, (sh.seasons.map fun se => se.episodes.length) = [1]) := by
  refine ⟨rfl, fun hclaim => ?_⟩
  have h := hclaim ((keptShows [c2rec]).insertionSort tvLE) rfl
      (processItem c2rec) (by decide)
  exact absurd h (by decide)

theorem processItem_of_match (r : TVCalRecord) (hm : hasMatchingSeason r = true) :
    ∃ se, (processItem r).seasons = [se] ∧ se.episodes = [mkEpisode r] := by
  unfold processItem pruneShow
  cases hf : ((mkShow r).seasons.find? fun se => se.season == (mkEpisode r).season) with
  | some se => exact ⟨{ se with episodes := [mkEpisode r] }, rfl, rfl⟩
  | none =>
    exfalso
    have hnone := List.find?_eq_none.mp hf
    unfold hasMatchingSeason at hm
    rw [List.any_eq_true] at hm
    obtain ⟨se, hmem, hp⟩ := hm
    exact hnone se hmem hp

/-- C2 (amended): every retained show has exactly one season, and comes from
some input record; when that record's episode season matches a known season,
the single season holds exactly the one constructed episode.  (A show retained
via the unpruned single-season path keeps that season's original episodes.) -/
theorem build_retained_one_season (data : List TVCalRecord) (cal : List TVShow)
    (h : Calendar.build data = some cal) :
    ∀ sh ∈ cal, sh.seasons.length = 1 ∧
      ∃ r, r ∈ data ∧ sh = processItem r ∧
        (hasMatchingSeason r = true →
          ∃ se, sh.seasons = [se] ∧ se.episodes = [mkEpisode r]) := by
  obtain ⟨-, rfl⟩ := (build_some_iff data cal).mp h
  intro sh hsh
  rw [List.mem_insertionSort] at hsh
  unfold keptShows at hsh
  rw [List.mem_filter] at hsh
  obtain ⟨hmap, hlen⟩ := hsh
  obtain ⟨r, hr, rfl⟩ := List.mem_map.mp hmap
  exact ⟨by simpa using hlen, r, hr, rfl, fun hm => processItem_of_match r hm⟩

/-- A record whose episode matches its show's only season. -/
def c2wrec : TVCalRecord :=
  { showTitle := "w", showSeasons := [{ season := 4, episodes := [] }],
    episodeSeason := 4, episodeNumber := 2, first_aired := 3 }

theorem build_retained_one_season_witness :
    (processItem c2wrec).seasons.length = 1 :=
  (build_retained_one_season [c2wrec] _ rfl (processItem c2wrec) (by decide)).1

/-- C3: the built calendar is sorted ascending by the retained shows' head
episode air timestamp (the key of line 107), is a permutation of the kept
shows, and the sort is stable: two kept shows with equal keys keep their
relative input order in the output. -/
theorem build_sorted_stable (data : List TVCalRecord) (cal : List TVShow)
    (h : Calendar.build data = some cal) :
    cal.Pairwise (fun a b => keyD a ≤ keyD b) ∧
    cal.Perm (keptShows data) ∧
    ∀ a b, keyD a = keyD b → [a, b].Sublist (keptShows data) → [a, b].Sublist cal := by
  obtain ⟨-, rfl⟩ := (build_some_iff data cal).mp h
  refine ⟨?_, List.perm_insertionSort _ _, ?_⟩
  · exact List.sorted_insertionSort tvLE (keptShows data)
  · intro a b hk hsub
    exact List.pair_sublist_insertionSort (le_of_eq hk) hsub

/-- First of two retained records sharing the air timestamp 5. -/
def c3r1 : TVCalRecord :=
  { showTitle := "s1", showSeasons := [{ season := 1, episodes := [] }],
    episodeSeason := 1, episodeNumber := 1, first_aired := 5 }

/-- Second of two retained records sharing the air timestamp 5. -/
def c3r2 : TVCalRecord :=
  { showTitle := "s2", showSeasons := [{ season := 1, episodes := [] }],
    episodeSeason := 1, episodeNumber := 2, first_aired := 5 }

theorem build_sorted_stable_witness :
    [processItem c3r1, processItem c3r2].Sublist
      ((keptShows [c3r1, c3r2]).insertionSort tvLE) :=
  (build_sorted_stable [c3r1, c3r2] _ rfl).2.2 (processItem c3r1) (processItem c3r2)
    rfl (List.Sublist.refl _)

/-! ## Movie calendars (`MovieCalendar._build`, calendar.py lines 153-161) -/

/-- The fields of a `Movie` read by the movie calendar: the `movie` fragment
(modelled by its title) and the `released` date passed by the builder. -/
structure Movie where
  title : String
  released : Nat
deriving Repr, DecidableEq

/-- One record of a movie calendar JSON response: a `movie` fragment and a
`released` date. -/
structure MovieCalRecord where
  movieTitle : String
  released : Nat
deriving Repr, DecidableEq

/-- `calendar.py` line 159: `Movie(released=released, **m_data)`. -/
def mkMovie (r : MovieCalRecord) : Movie :=
  { title := r.movieTitle, released := r.released }

/-- Ordering used by line 161's `sorted(..., key=lambda x: x.released)`. -/
def movieLE (a b : Movie) : Prop := a.released ≤ b.released

instance : DecidableRel movieLE := fun a b => Nat.decLe a.released b.released

instance : IsTotal Movie movieLE := ⟨fun a b => Nat.le_total a.released b.released⟩

instance : IsTrans Movie movieLE := ⟨fun _ _ _ => Nat.le_trans⟩

/-- `MovieCalendar._build` (calendar.py lines 153-161): one `Movie` per input
record, no filtering, then a stable sort by release date. -/
def MovieCalendar.build (data : List MovieCalRecord) : List Movie :=
  (data.map mkMovie).insertionSort movieLE

/-- C4: the movie calendar keeps every input record (it has exactly `N`
entries for `N` records, and is a permutation of the per-record movies) and is
sorted ascending by release date. -/
theorem movie_build_keeps_all_sorted (data : List MovieCalRecord) :
    (MovieCalendar.build data).length = data.length ∧
    (MovieCalendar.build data).Perm (data.map mkMovie) ∧
    (MovieCalendar.build data).Pairwise (fun a b => a.released ≤ b.released) := by
  refine ⟨?_, List.perm_insertionSort _ _, ?_⟩
  · exact (List.perm_insertionSort _ _).length_eq.trans (List.length_map _ _)
  · exact List.sorted_insertionSort movieLE (data.map mkMovie)

/-! ## Sync operations (`trakt/sync.py`)

The sync functions read three things from a media entity: its `to_json()`
serialization, its `ids` dictionary and its `media_type` string; these classes
live outside `src/`, so a media object is embedded as an opaque record of
those three fields.  JSON fragments are association lists. -/

structure SyncMedia where
  to_json : List (String × String)
  ids : List (String × String)
  media_type : String
deriving Repr, DecidableEq

/-- Modelled from the spec: `timestamp` (in `trakt.utils`, outside `src/`)
serializes a datetime value; datetimes are modelled as `Nat`, serialization as
`toString`. -/
def timestamp (t : Nat) : String := toString t

/-- Payload of the `comments` POST built by `comment` (sync.py lines 29-33):
`dict(comment=..., spoiler=..., review=...)` updated with the media's JSON
fields (which use disjoint keys). -/
structure CommentPayload where
  comment : String
  spoiler : Bool
  review : Bool
  media_fields : List (String × String)
deriving Repr, DecidableEq

/-- `comment` (sync.py lines 15-33): auto-promote the review flag when the
body exceeds 200 characters, then post to `comments`. -/
def comment (media : SyncMedia) (comment_body : String) (spoiler review : Bool) :
    String × CommentPayload :=
  let review := if review = false ∧ 200 < comment_body.length then true else review
  ("comments",
   { comment := comment_body, spoiler := spoiler, review := review,
     media_fields := media.to_json })

/-- C6: with `review` unspecified/False, the posted payload has `review=True`
exactly when the text exceeds 200 characters, and carries the comment text,
the spoiler flag and the media's JSON fields; the target is `comments`. -/
theorem comment_review_autopromote (media : SyncMedia) (text : String) (sp : Bool) :
    (comment media text sp false).2.review = decide (200 < text.length) ∧
    (comment media text sp false).2.comment = text ∧
    (comment media text sp false).2.spoiler = sp ∧
    (comment media text sp false).2.media_fields = media.to_json ∧
    (comment media text sp false).1 = "comments" := by
  unfold comment
  by_cases h : 200 < text.length
  · simp [h]
  · simp [h]

/-- Request issued by `rate` (sync.py lines 36-51): uri `sync/ratings`, the
payload keyed by the media's type, the payload being the media's `ids` merged
with the rating and serialized timestamp. -/
structure RateRequest where
  uri : String
  media_type : String
  rating : Nat
  rated_at : String
  ids : List (String × String)
deriving Repr, DecidableEq

/-- `rate` (sync.py lines 36-51); the ambient `datetime.now()` is the explicit
`now` argument, substituted exactly when `rated_at` is `None`. -/
def rate (media : SyncMedia) (rating : Nat) (rated_at : Option Nat) (now : Nat) :
    RateRequest :=
  let t := match rated_at with
    | none => now
    | some t => t
  { uri := "sync/ratings", media_type := media.media_type,
    rating := rating, rated_at := timestamp t, ids := media.ids }

/-- C7: the rate payload always carries the media's identifier fields, the
rating and a serialized timestamp, keyed by the media's type under
`sync/ratings`; when `rated_at` is omitted the serialized timestamp is the
current time, otherwise it is the given time. -/
theorem rate_payload_fields (media : SyncMedia) (rating : Nat) (now : Nat) :
    (rate media rating none now).rated_at = timestamp now ∧
    (∀ t, (rate media rating (some t) now).rated_at = timestamp t) ∧
    (∀ ra, (rate media rating ra now).ids = media.ids ∧
      (rate media rating ra now).rating = rating ∧
      (rate media rating ra now).media_type = media.media_type ∧
      (rate media rating ra now).uri = "sync/ratings") :=
  ⟨rfl, fun _ => rfl, fun _ => ⟨rfl, rfl, rfl, rfl⟩⟩

/-! ## Search (`search_by_id` and `get_search_results`, sync.py) -/

/-- Modelled from the spec: `slugify` (in `trakt.utils`, outside `src/`)
URL-escapes the query string; the claims settled here do not depend on its
exact output, only on where in the pipeline it is applied. -/
def slugify (s : String) : String :=
  (s.toLower.replace " " "-")

/-- The valid id types of `search_by_id` (sync.py lines 186-187). -/
def search_by_id_valids : List String :=
  ["trakt-movie", "trakt-show", "trakt-episode", "imdb", "tmdb", "tvdb", "tvrage"]

/-- The GET request `search_by_id` would issue, characterized by its query
parameters (sync.py lines 190-191). -/
structure SearchIdRequest where
  query : String
  id_type : String
deriving Repr, DecidableEq

/-- The validation prefix of `search_by_id` (sync.py lines 177-191): raise
`ValueError` when the id type is not in the valid set, otherwise issue the
GET request.  The error branch is taken before any request is built. -/
def search_by_id (query id_type : String) : Except String SearchIdRequest :=
  if id_type ∉ search_by_id_valids then
    Except.error
      "search_type must be one of (trakt-movie, trakt-show, trakt-episode, imdb, tmdb, tvdb, tvrage)"
  else
    Except.ok { query := slugify query, id_type := id_type }

/-- C8: for an id type outside the valid set `search_by_id` returns the
invalid-argument error and no request; for an id type in the set no error is
raised and the request is issued. -/
theorem search_by_id_validation (query id_type : String) :
    (id_type ∉ search_by_id_valids →
      search_by_id query id_type = Except.error
        "search_type must be one of (trakt-movie, trakt-show, trakt-episode, imdb, tmdb, tvdb, tvrage)") ∧
    (id_type ∈ search_by_id_valids →
      search_by_id query id_type =
        Except.ok { query := slugify query, id_type := id_type }) := by
  constructor
  · intro h
    simp [search_by_id, h]
  · intro h
    simp [search_by_id, h]

theorem search_by_id_validation_witness :
    search_by_id "The Dark Knight" "bogus" = Except.error
      "search_type must be one of (trakt-movie, trakt-show, trakt-episode, imdb, tmdb, tvdb, tvrage)" ∧
    search_by_id "The Dark Knight" "imdb" =
      Except.ok { query := slugify "The Dark Knight", id_type := "imdb" } :=
  ⟨(search_by_id_validation "The Dark Knight" "bogus").1 (by decide),
   (search_by_id_validation "The Dark Knight" "imdb").2 (by decide)⟩

/-- One row of a search JSON response: the `type` discriminant, the `score`,
and the nested fragments the dispatcher may read (modelled as plain fields;
the code pops only the fragment selected by the discriminant). -/
structure SearchRow where
  type : String
  score : Nat
  movie_fields : List (String × String)
  show_title : String
  show_fields : List (String × String)
  episode_fields : List (String × String)
  person_fields : List (String × String)
deriving Repr, DecidableEq

/-- The entity wrapped by a search result, tagged by the discriminant branch
that constructed it (sync.py lines 158-171). -/
inductive SearchMedia where
  | movie (fields : List (String × String))
  | tvshow (fields : List (String × String))
  | episode (showTitle : String) (fields : List (String × String))
  | person (fields : List (String × String))
deriving Repr, DecidableEq

/-- `SearchResult` (sync.py lines 290-304): `media` defaults to `None` and is
only populated by a recognized discriminant. -/
structure SearchResult where
  type : String
  score : Nat
  media : Option SearchMedia
deriving Repr, DecidableEq

/-- Body of the response walk of `get_search_results` (sync.py lines 155-172):
build `SearchResult(type, score)`, then populate `media` through the
`if/elif` chain on the discriminant, leaving it `None` otherwise. -/
def mkSearchResult (row : SearchRow) : SearchResult :=
  { type := row.type, score := row.score,
    media :=
      if row.type == "movie" then some (SearchMedia.movie row.movie_fields)
      else if row.type == "show" then some (SearchMedia.tvshow row.show_fields)
      else if row.type == "episode" then
        some (SearchMedia.episode row.show_title row.episode_fields)
      else if row.type == "person" then some (SearchMedia.person row.person_fields)
      else none }

/-- The response walk of `get_search_results`: one appended result per row. -/
def get_search_results (rows : List SearchRow) : List SearchResult :=
  rows.map mkSearchResult

/-- C9: `get_search_results` returns exactly one `SearchResult` per response
row; each carries the row's type and score, and a row whose discriminant is
not one of movie/show/episode/person yields `media = none`. -/
theorem get_search_results_preserves_rows (rows : List SearchRow) :
    (get_search_results rows).length = rows.length ∧
    List.Forall₂
      (fun row res => res.type = row.type ∧ res.score = row.score ∧
        (row.type ∉ (["movie", "show", "episode", "person"] : List String) →
          res.media = none))
      rows (get_search_results rows) := by
  refine ⟨List.length_map rows mkSearchResult, ?_⟩
  rw [get_search_results, List.forall₂_map_right_iff]
  rw [List.forall₂_same]
  intro row _
  refine ⟨rfl, rfl, fun hm => ?_⟩
  simp only [List.mem_cons, List.not_mem_nil, or_false, not_or] at hm
  obtain ⟨h1, h2, h3, h4⟩ := hm
  simp [mkSearchResult, h1, h2, h3, h4]

/-- A search row with an unrecognized discriminant. -/
def c9row : SearchRow :=
  { type := "list", score := 42, movie_fields := [], show_title := "t",
    show_fields := [], episode_fields := [], person_fields := [] }

theorem get_search_results_preserves_rows_witness :
    (get_search_results [c9row]).length = 1 ∧ (mkSearchResult c9row).media = none := by
  have h := get_search_results_preserves_rows [c9row]
  refine ⟨h.1, ?_⟩
  cases h.2 with
  | cons hrel _ => exact hrel.2.2 (by decide)

/-! ## Scrobbler (sync.py lines 215-287)

Playback progress is a Python float compared against `80.0` and assigned
`100.0`; no float arithmetic is performed, so progress is modelled as `ℚ`.
Each HTTP call is modelled by the `ScrobbleRequest` it would post. -/

/-- The part of a media entity the scrobbler reads: its `to_json()` fields. -/
structure ScrobbleMedia where
  to_json : List (String × String)
deriving Repr, DecidableEq

/-- `Scrobbler.__init__` state (sync.py lines 232-234). -/
structure Scrobbler where
  media : ScrobbleMedia
  progress : ℚ
  version : String
  date : String
deriving Repr, DecidableEq

/-- Payload posted by `Scrobbler._post` (sync.py lines 263-274):
`dict(progress=..., app_version=..., date=...)` updated with the media's JSON
fields (disjoint keys), posted to the given uri. -/
structure ScrobbleRequest where
  uri : String
  progress : ℚ
  app_version : String
  date : String
  media_fields : List (String × String)
deriving Repr, DecidableEq

def Scrobbler.post (s : Scrobbler) (uri : String) : ScrobbleRequest :=
  { uri := uri, progress := s.progress, app_version := s.version, date := s.date,
    media_fields := s.media.to_json }

/-- `Scrobbler.start` (line 240). -/
def Scrobbler.start (s : Scrobbler) : ScrobbleRequest :=
  s.post "scrobble/start"

/-- `Scrobbler.stop` (line 248). -/
def Scrobbler.stop (s : Scrobbler) : ScrobbleRequest :=
  s.post "scrobble/stop"

/-- `Scrobbler.finish` (sync.py lines 250-254): clamp progress up to 100 when
it is strictly below 80, then issue the stop request. -/
def Scrobbler.finish (s : Scrobbler) : Scrobbler × ScrobbleRequest :=
  let s := if s.progress < 80 then { s with progress := 100 } else s
  (s, s.stop)

/-- `Scrobbler.__init__` (sync.py lines 222-236): build the state and, when
the initial progress is strictly positive, immediately issue the start
request; returns the state and the list of requests issued by construction. -/
def Scrobbler.init (media : ScrobbleMedia) (progress : ℚ) (app_version app_date : String) :
    Scrobbler × List ScrobbleRequest :=
  let s : Scrobbler :=
    { media := media, progress := progress, version := app_version, date := app_date }
  (s, if s.progress > 0 then [s.start] else [])

/-- C5: `finish` sets progress to 100 exactly when the prior progress is
strictly below 80, leaves it unchanged otherwise, and in both cases issues a
stop request carrying the resulting progress. -/
theorem finish_clamps_progress (s : Scrobbler) :
    (s.progress < 80 → (Scrobbler.finish s).1.progress = 100) ∧
    (80 ≤ s.progress → (Scrobbler.finish s).1.progress = s.progress) ∧
    (Scrobbler.finish s).2.uri = "scrobble/stop" ∧
    (Scrobbler.finish s).2.progress = (Scrobbler.finish s).1.progress := by
  unfold Scrobbler.finish Scrobbler.stop Scrobbler.post
  by_cases h : s.progress < 80
  · simp [h]
  · simp [h, not_lt.mp h]

/-- Scrobbler at 50% progress. -/
def c5low : Scrobbler :=
  { media := { to_json := [("movie", "m")] }, progress := 50, version := "1.0", date := "d" }

/-- Scrobbler at 85% progress. -/
def c5high : Scrobbler :=
  { media := { to_json := [("movie", "m")] }, progress := 85, version := "1.0", date := "d" }

theorem finish_clamps_progress_witness :
    (Scrobbler.finish c5low).1.progress = 100 ∧
    (Scrobbler.finish c5high).1.progress = 85 :=
  ⟨(finish_clamps_progress c5low).1 (by norm_num [c5low]),
   (finish_clamps_progress c5high).2.1 (by norm_num [c5high])⟩

/-- C10: constructing a `Scrobbler` issues the scrobble/start request exactly
when the initial progress is strictly positive; with progress zero or
negative, construction issues no request at all. -/
theorem scrobbler_init_start_iff_progress_pos (media : ScrobbleMedia) (progress : ℚ)
    (v d : String) :
    (0 < progress → (Scrobbler.init media progress v d).2 =
      [Scrobbler.start (Scrobbler.init media progress v d).1]) ∧
    (progress ≤ 0 → (Scrobbler.init media progress v d).2 = []) ∧
    ((Scrobbler.init media progress v d).2 ≠ [] ↔ 0 < progress) := by
  unfold Scrobbler.init
  by_cases h : (0:ℚ) < progress
  · simp [h]
  · simp [h, not_lt.mp h]

/-- A media payload for the construction witnesses. -/
def c10media : ScrobbleMedia := { to_json := [("episode", "e")] }

theorem scrobbler_init_start_iff_progress_pos_witness :
    (Scrobbler.init c10media 50 "1.0" "d").2 =
      [Scrobbler.start (Scrobbler.init c10media 50 "1.0" "d").1] ∧
    (Scrobbler.init c10media 0 "1.0" "d").2 = [] :=
  ⟨(scrobbler_init_start_iff_progress_pos c10media 50 "1.0" "d").1 (by norm_num),
   (scrobbler_init_start_iff_progress_pos c10media 0 "1.0" "d").2.1 (by norm_num)⟩

end PyTrakt
